import Mathlib

/-!
Verification development for the `bruner-agent` web backend (`src/app.py`).

The embedding models the per-client conversation-history state machine and
the HTTP handlers that manipulate it.  External effects (the OpenAI API,
PDF parsing, audio transcription) are modelled as explicit oracle
parameters: each handler takes the outcome the external collaborator would
produce, and the embedding records whether an external call was attempted
and with which context.  Python lists of `{"role": ..., "content": ...}`
dicts become `List Turn`; the module-level `conversation_histories`
defaultdict becomes an explicit `Store` value threaded through handlers.
-/

namespace App

/-- Python `s.strip()`: the string with leading and trailing whitespace
removed, embedded over the character list. -/
def pyStrip (s : String) : String :=
  String.mk (((s.data.dropWhile Char.isWhitespace).reverse.dropWhile
    Char.isWhitespace).reverse)

/-- Python `s[:n]`: the first `n` characters of `s` (all of `s` when it is
shorter), embedded over the character list. -/
def pyTake (s : String) (n : Nat) : String := String.mk (s.data.take n)

/-- The `role` field of a history entry: `"user"`, `"assistant"` or `"system"`. -/
inductive Role where
  | user
  | assistant
  | system
deriving DecidableEq, Repr

/-- One history entry `{"role": r, "content": c}`. -/
structure Turn where
  role : Role
  content : String
deriving DecidableEq, Repr

/-- A conversation history: one value of `conversation_histories`. -/
abbrev Log := List Turn

/-- The `conversation_histories` defaultdict: every key maps to a log,
missing keys map to the empty list (`defaultdict(list)`). -/
def Store : Type := String → Log

/-- The store at process start: no client has any history. -/
def emptyStore : Store := fun _ => []

/-- Rebinding one client's history, as the in-place list mutations do. -/
def updateStore (s : Store) (clientId : String) (l : Log) : Store :=
  fun k => if k = clientId then l else s k

/-- The literal `10` of `history[-10:]` in `gerar_resposta_agente`. -/
def MAX_TURNS : Nat := 10

/-- `contexto = history[-10:]`: the last `min(len, 10)` entries of the log,
in original order (Python slicing with a negative start clamps at 0). -/
def window (log : Log) : Log := log.drop (log.length - MAX_TURNS)

/-- Outcome of one external chat-completion call: either the model's reply
text or the exception message raised by the client library. -/
inductive ModelOutcome where
  | ok (text : String)
  | err (e : String)
deriving DecidableEq, Repr

/-- Reply of `gerar_resposta_agente` when `client is None`. -/
def noKeyMsg : String :=
  "Erro: a chave da OpenAI não está configurada.\nDefina a variável de ambiente OPENAI_API_KEY antes de rodar o servidor."

/-- Reply of `gerar_resposta_agente` when the history is empty. -/
def noMessageYetMsg : String :=
  "Pode repetir? Ainda não recebi nenhuma mensagem na conversa."

/-- Reply of `gerar_resposta_agente` when the external call raises `e`. -/
def modelErrMsg (e : String) : String :=
  "Tive um problema ao falar com o modelo de IA.\nDetalhe técnico: " ++ e

/-- Result of `gerar_resposta_agente`: the reply string, plus the context
window submitted to the model (`none` when no external call was attempted). -/
structure GenResult where
  reply : String
  modelCall : Option Log
deriving DecidableEq, Repr

/-- `gerar_resposta_agente(client_id)`, reading the given history.
Checks the key, then emptiness, then submits `contexto = history[-10:]`
(after the fixed persona system message) and returns `texto.strip()`,
or the formatted error reply if the call raised. -/
def gerar_resposta_agente (hasKey : Bool) (outcome : ModelOutcome) (history : Log) :
    GenResult :=
  if hasKey = false then
    { reply := noKeyMsg, modelCall := none }
  else if history.isEmpty then
    { reply := noMessageYetMsg, modelCall := none }
  else
    let contexto := window history
    match outcome with
    | ModelOutcome.ok texto => { reply := pyStrip texto, modelCall := some contexto }
    | ModelOutcome.err e => { reply := modelErrMsg e, modelCall := some contexto }

/-- Reply of `resumir_texto` when `client is None`. -/
def noKeySummaryMsg : String :=
  "Não consegui falar com a IA para resumir o texto (OpenAI não configurada)."

/-- Reply of `resumir_texto` when the external call raises `e`. -/
def summErrMsg (e : String) : String :=
  "Não consegui resumir o texto por um erro técnico: " ++ e

/-- `resumir_texto(conteudo)`: without a key, a fixed apology; otherwise the
model's summary (of the prompt built from `conteudo[:8000]`), stripped, or
the formatted error message if the call raised. -/
def resumir_texto (hasKey : Bool) (outcome : ModelOutcome) (conteudo : String) : String :=
  if hasKey = false then noKeySummaryMsg
  else
    match outcome with
    | ModelOutcome.ok t => pyStrip t
    | ModelOutcome.err e => summErrMsg e

/-- `gerar_audio_openai(texto)`: raises `RuntimeError("OpenAI não configurada")`
when `client is None`, otherwise returns the temp-file path or re-raises the
streaming error. Exceptions are modelled as `Except.error`. -/
def gerar_audio_openai (hasKey : Bool) (ttsOutcome : Except String String) :
    Except String String :=
  if hasKey = false then Except.error "OpenAI não configurada"
  else ttsOutcome

/-- The JSON body and status of a `/api/chat` response. -/
structure ChatResponse where
  status : Nat
  reply : String
deriving DecidableEq, Repr

/-- Fixed clarification reply of `/api/chat` to an empty or whitespace message. -/
def emptyMsgReply : String :=
  "Pode repetir a pergunta? Não recebi nenhum texto."

/-- Full effect of one `/api/chat` request: response, store afterwards, and
the context window submitted to the model (`none` if no call was attempted). -/
structure ChatResult where
  resp : ChatResponse
  store : Store
  modelCall : Option Log

/-- The `/api/chat` handler.  Rejects a whitespace-only message with a fixed
reply (HTTP 200) before touching the store; otherwise appends the user turn,
generates a reply from the updated history, appends the assistant turn, and
returns the reply. -/
def chat (hasKey : Bool) (outcome : ModelOutcome) (store : Store)
    (message clientId : String) : ChatResult :=
  if pyStrip message = "" then
    { resp := { status := 200, reply := emptyMsgReply }, store := store, modelCall := none }
  else
    let h1 := store clientId ++ [{ role := Role.user, content := message }]
    let r := gerar_resposta_agente hasKey outcome h1
    let h2 := h1 ++ [{ role := Role.assistant, content := r.reply }]
    { resp := { status := 200, reply := r.reply },
      store := updateStore store clientId h2,
      modelCall := r.modelCall }

end App

namespace App

/-- `os.path.splitext(nome)[1].lower()`: the (lower-cased) extension of the
last path segment; a dot opens an extension only if some earlier character
of the segment is not a dot. -/
def splitextExt (nome : String) : String :=
  let base := (nome.data.reverse.takeWhile (fun c => c ≠ '/')).reverse
  match base.reverse.findIdx? (fun c => c = '.') with
  | none => ""
  | some r =>
    let i := base.length - 1 - r
    if (base.take i).all (fun c => c = '.') then ""
    else String.mk ((base.drop i).map Char.toLower)

/-- The extensions read as permissive UTF-8 text in `upload`. -/
def supportedTextExts : List String := [".txt", ".md", ".csv", ".json", ".log"]

/-- An uploaded file as the handler observes it: the (possibly empty)
filename, the result of `arquivo.read().decode("utf-8", errors="ignore")`,
and the result of running `PdfReader` over it (`extract_text()` may return
`None` per page; the reader itself may raise). -/
structure UploadedFile where
  filename : String
  textContent : String
  pdfResult : Except String (List (Option String))

/-- `"\n\n".join(partes)` where each `parte` is `page.extract_text() or ""`. -/
def pdfConcat (pages : List (Option String)) : String :=
  String.intercalate "\n\n" (pages.map (fun p => p.getD ""))

/-- A `/api/upload` response: an error body with status, or the success body. -/
inductive UploadResult where
  | errorResp (status : Nat) (msg : String)
  | okResp (filename text preview summary : String)
deriving DecidableEq, Repr

/-- Error body when no file part is present. -/
def noFileMsg : String := "Nenhum arquivo enviado"

/-- Error body for an unsupported extension. -/
def unsupportedTypeMsg : String := "Tipo de arquivo não suportado. Use .txt ou .pdf."

/-- Error body when reading or parsing the file raised `e`. -/
def processErrMsg (e : String) : String := "Erro ao processar arquivo: " ++ e

/-- Summary returned when the extracted text is empty or whitespace. -/
def noExtractMsg : String := "Não foi possível extrair texto deste arquivo."

/-- An ASCII apostrophe, as it appears around the filename in the injected
document turn. -/
def quoteChar : String := String.singleton (Char.ofNat 39)

/-- Content of the system turn that stores an uploaded document. -/
def docInjectionContent (nome conteudo : String) : String :=
  "O usuário enviou um arquivo chamado " ++ quoteChar ++ nome ++ quoteChar
    ++ ". Abaixo está o conteúdo completo do arquivo:\n\n" ++ conteudo

/-- Full effect of one `/api/upload` request: response, store afterwards,
and whether an external summarization call was attempted. -/
structure UploadOutcome where
  resp : UploadResult
  store : Store
  summarizeCalled : Bool

/-- Shared tail of `upload` once `conteudo` has been extracted: the
empty-content early return, else preview, summary, and replacement of the
client's history by the single document-injection system turn. -/
def uploadWithContent (hasKey : Bool) (summOutcome : ModelOutcome) (store : Store)
    (clientId nome conteudo : String) : UploadOutcome :=
  if pyStrip conteudo = "" then
    { resp := UploadResult.okResp nome "" "" noExtractMsg,
      store := store, summarizeCalled := false }
  else
    let preview := pyTake conteudo 1200
    let resumo := resumir_texto hasKey summOutcome conteudo
    let newLog : Log := [{ role := Role.system, content := docInjectionContent nome conteudo }]
    { resp := UploadResult.okResp nome conteudo preview resumo,
      store := updateStore store clientId newLog,
      summarizeCalled := hasKey }

/-- The `/api/upload` handler: 400 when no file, extraction by extension
(permissive UTF-8 text, or PDF pages joined by blank lines, or 400 for
anything else), 500 if extraction raised, then `uploadWithContent`. -/
def upload (hasKey : Bool) (summOutcome : ModelOutcome) (store : Store)
    (file : Option UploadedFile) (clientId : String) : UploadOutcome :=
  match file with
  | none =>
    { resp := UploadResult.errorResp 400 noFileMsg, store := store, summarizeCalled := false }
  | some f =>
    let nome := if f.filename = "" then "arquivo" else f.filename
    let ext := splitextExt nome
    if supportedTextExts.contains ext then
      uploadWithContent hasKey summOutcome store clientId nome f.textContent
    else if ext = ".pdf" then
      match f.pdfResult with
      | Except.error e =>
        { resp := UploadResult.errorResp 500 (processErrMsg e),
          store := store, summarizeCalled := false }
      | Except.ok pages =>
        uploadWithContent hasKey summOutcome store clientId nome (pdfConcat pages)
    else
      { resp := UploadResult.errorResp 400 unsupportedTypeMsg,
        store := store, summarizeCalled := false }

/-- A `/api/tts` response: the streamed audio file or an error body. -/
inductive TtsResult where
  | audio (path : String)
  | errorResp (status : Nat) (msg : String)
deriving DecidableEq, Repr

/-- The `/api/tts` handler: 400 on whitespace text, else the generated file,
with any exception (including the missing-key `RuntimeError`) caught and
returned as a 500 body. -/
def tts (hasKey : Bool) (ttsOutcome : Except String String) (texto : String) : TtsResult :=
  if pyStrip texto = "" then TtsResult.errorResp 400 "Texto vazio para TTS"
  else
    match gerar_audio_openai hasKey ttsOutcome with
    | Except.ok p => TtsResult.audio p
    | Except.error e => TtsResult.errorResp 500 ("Falha ao gerar áudio: " ++ e)

/-- A `/api/stt` response body. -/
inductive SttResponse where
  | okResp (userText replyText : String)
  | errorResp (status : Nat) (msg : String)
deriving DecidableEq, Repr

/-- Full effect of one `/api/stt` request. -/
structure SttResult where
  resp : SttResponse
  store : Store

/-- The `/api/stt` handler: 500 when no key, 400 when no audio part, 500 when
transcription raised; otherwise appends the stripped transcription as a user
turn (with no emptiness check), generates a reply, appends it, and returns
both texts. -/
def stt_conversa (hasKey : Bool) (transcription : Except String String)
    (chatOutcome : ModelOutcome) (store : Store) (hasAudio : Bool)
    (clientId : String) : SttResult :=
  if hasKey = false then
    { resp := SttResponse.errorResp 500 "OpenAI não configurada", store := store }
  else if hasAudio = false then
    { resp := SttResponse.errorResp 400 "Nenhum áudio enviado", store := store }
  else
    match transcription with
    | Except.error e =>
      { resp := SttResponse.errorResp 500 ("Falha ao transcrever áudio: " ++ e),
        store := store }
    | Except.ok t =>
      let userText := pyStrip t
      let h1 := store clientId ++ [{ role := Role.user, content := userText }]
      let r := gerar_resposta_agente hasKey chatOutcome h1
      let h2 := h1 ++ [{ role := Role.assistant, content := r.reply }]
      { resp := SttResponse.okResp userText r.reply,
        store := updateStore store clientId h2 }

/-- One step of activity on a single client's history, for purity claims:
either an append or a read of the context window. -/
inductive HistOp where
  | append (t : Turn)
  | readWindow
deriving DecidableEq, Repr

/-- Windowing viewed as a state transformer: the computed slice together
with the log afterwards. -/
def windowOp (log : Log) : Log × Log := (window log, log)

/-- Run a sequence of appends and window reads against a log. -/
def runOps : List HistOp → Log → Log
  | [], log => log
  | HistOp.append t :: rest, log => runOps rest (log ++ [t])
  | HistOp.readWindow :: rest, log => runOps rest (windowOp log).2

/-- The turns appended by a sequence of operations, in order. -/
def appendsOf : List HistOp → List Turn
  | [] => []
  | HistOp.append t :: rest => t :: appendsOf rest
  | HistOp.readWindow :: rest => appendsOf rest

/-- A concrete two-turn conversation log. -/
def c1log : Log :=
  [{ role := Role.user, content := "oi" }, { role := Role.assistant, content := "olá" }]

/-- A concrete uploaded text file. -/
def c3file : UploadedFile :=
  { filename := "nota.txt", textContent := "ola", pdfResult := Except.ok [] }

/-- A store in which client `u1` already has one chat turn. -/
def c3priorStore : Store :=
  updateStore emptyStore "u1" [{ role := Role.user, content := "antes" }]

/-- A concrete three-page PDF upload. -/
def c7pdfFile : UploadedFile :=
  { filename := "report.pdf", textContent := "",
    pdfResult := Except.ok [some "pagina um", some "pagina dois", some "pagina tres"] }

/-- A concrete upload with an unsupported extension. -/
def c8exeFile : UploadedFile :=
  { filename := "virus.exe", textContent := "MZ", pdfResult := Except.ok [] }

end App

namespace App

/-! ### Helper lemmas -/

theorem pyStrip_empty : pyStrip "" = "" := rfl

theorem mem_window_concat (l : Log) (t : Turn) : t ∈ window (l ++ [t]) := by
  have hle : (l ++ [t]).length - MAX_TURNS ≤ l.length := by
    simp [MAX_TURNS]
  show t ∈ (l ++ [t]).drop ((l ++ [t]).length - MAX_TURNS)
  rw [List.drop_append_of_le_length hle]
  simp

/-! ### Claims -/

/-- C1: the context window is always the last `min(L, 10)` turns of the log
in their original relative order — it has length `min L 10`, is a suffix of
the log, equals the whole log when `L ≤ 10` (hence the whole log for
`L < 10` and `[]` for `L = 0`), and is exactly the context that
`gerar_resposta_agente` submits to the model whenever a call is made. -/
theorem C1_window_is_last_min_turns (l : Log) :
    (window l).length = min l.length MAX_TURNS ∧
    window l <:+ l ∧
    (l.length ≤ MAX_TURNS → window l = l) ∧
    (∀ oc : ModelOutcome, l ≠ [] →
      (gerar_resposta_agente true oc l).modelCall = some (window l)) := by
  refine ⟨?_, ?_, ?_, ?_⟩
  · simp [window]
    omega
  · simpa [window] using List.drop_suffix (l.length - MAX_TURNS) l
  · intro h
    simp [window, Nat.sub_eq_zero_of_le h]
  · intro oc h
    cases oc <;> simp [gerar_resposta_agente, h]

/-- Witness for C1 at a concrete two-turn log. -/
theorem C1_window_is_last_min_turns_witness :
    (window c1log).length = min c1log.length MAX_TURNS ∧
    window c1log = c1log ∧
    (gerar_resposta_agente true (ModelOutcome.ok "tudo bem") c1log).modelCall
      = some (window c1log) :=
  ⟨(C1_window_is_last_min_turns c1log).1,
   (C1_window_is_last_min_turns c1log).2.2.1 (by decide),
   (C1_window_is_last_min_turns c1log).2.2.2 (ModelOutcome.ok "tudo bem") (by decide)⟩

/-- C2 is false as stated: for a fresh client (empty log), a non-empty chat
message does NOT get the fixed no-message-yet reply — the handler appends
the user turn before generating, so the model is invoked. -/
theorem C2_counterexample :
    emptyStore "u1" = [] ∧
    (chat true (ModelOutcome.ok "olá") emptyStore "Oi" "u1").modelCall ≠ none ∧
    (chat true (ModelOutcome.ok "olá") emptyStore "Oi" "u1").resp.reply ≠ noMessageYetMsg := by
  refine ⟨rfl, ?_, ?_⟩ <;> decide

/-- C2 (amended): a fresh client's log is empty, and the zero-turn
special-case lives in `gerar_resposta_agente` (fixed no-message-yet reply,
no model call, when its history argument is empty); the chat handler however
appends the user's non-empty message before generating, so a chat message on
an empty log submits exactly the single user turn to the model. -/
theorem C2_amended_zero_turn_check (clientId message : String)
    (oc : ModelOutcome) (h : ¬ pyStrip message = "") :
    emptyStore clientId = [] ∧
    gerar_resposta_agente true oc [] =
      { reply := noMessageYetMsg, modelCall := none } ∧
    (chat true oc emptyStore message clientId).modelCall =
      some [{ role := Role.user, content := message }] := by
  refine ⟨rfl, by cases oc <;> rfl, ?_⟩
  cases oc <;>
    simp [chat, h, gerar_resposta_agente, emptyStore, window, MAX_TURNS]

/-- Witness for the amended C2 at a concrete message. -/
theorem C2_amended_zero_turn_check_witness :
    emptyStore "u1" = [] ∧
    gerar_resposta_agente true (ModelOutcome.ok "olá") [] =
      { reply := noMessageYetMsg, modelCall := none } ∧
    (chat true (ModelOutcome.ok "olá") emptyStore "Oi" "u1").modelCall =
      some [{ role := Role.user, content := "Oi" }] :=
  C2_amended_zero_turn_check "u1" "Oi" (ModelOutcome.ok "olá") (by decide)

/-- C3 is false as stated: after uploading `nota.txt` with content `"ola"`,
the log holds exactly one system turn, but its content is the fixed preamble
followed by the content — not exactly the content. -/
theorem C3_counterexample :
    (upload false (ModelOutcome.ok "r") emptyStore (some c3file) "u1").store "u1" =
      [{ role := Role.system, content := docInjectionContent "nota.txt" "ola" }] ∧
    docInjectionContent "nota.txt" "ola" ≠ "ola" := by
  constructor <;> decide

/-- C3 (amended): uploading a text file whose decoded content `C` is not
pure whitespace discards all prior history for that client and leaves a log
of exactly one system turn, whose content is the fixed preamble naming the
file followed by exactly `C`; other clients' logs are untouched. -/
theorem C3_amended_doc_injection (hasKey : Bool) (oc : ModelOutcome) (store : Store)
    (clientId : String) (f : UploadedFile)
    (hname : f.filename ≠ "")
    (hext : supportedTextExts.contains (splitextExt f.filename) = true)
    (hne : ¬ pyStrip f.textContent = "") :
    (upload hasKey oc store (some f) clientId).store clientId =
      [{ role := Role.system,
         content := docInjectionContent f.filename f.textContent }] ∧
    (∃ pre, docInjectionContent f.filename f.textContent = pre ++ f.textContent) ∧
    (∀ k, k ≠ clientId → (upload hasKey oc store (some f) clientId).store k = store k) := by
  have hmem : splitextExt f.filename ∈ supportedTextExts := by
    simpa using hext
  refine ⟨?_, ⟨"O usuário enviou um arquivo chamado " ++ quoteChar ++ f.filename ++ quoteChar
    ++ ". Abaixo está o conteúdo completo do arquivo:\n\n", rfl⟩, ?_⟩
  · simp [upload, hname, hmem, uploadWithContent, hne, updateStore]
  · intro k hk
    simp [upload, hname, hmem, uploadWithContent, hne, updateStore, hk]

/-- Witness for the amended C3: the upload clears prior history and stores
the single preamble-plus-content system turn. -/
theorem C3_amended_doc_injection_witness :
    (upload true (ModelOutcome.ok "resumo") c3priorStore (some c3file) "u1").store "u1" =
      [{ role := Role.system, content := docInjectionContent "nota.txt" "ola" }] ∧
    (∃ pre, docInjectionContent "nota.txt" "ola" = pre ++ "ola") :=
  ⟨(C3_amended_doc_injection true (ModelOutcome.ok "resumo") c3priorStore "u1" c3file
      (by decide) (by decide) (by decide)).1,
   (C3_amended_doc_injection true (ModelOutcome.ok "resumo") c3priorStore "u1" c3file
      (by decide) (by decide) (by decide)).2.1⟩

/-- C4 is false as stated: the speech-to-text path appends the transcribed
user text with no emptiness check, so an empty transcription appends a user
turn with empty content (followed by the assistant turn). -/
theorem C4_counterexample :
    (stt_conversa true (Except.ok "") (ModelOutcome.ok "resp") emptyStore true "u1").store "u1" =
      [{ role := Role.user, content := "" },
       { role := Role.assistant, content := "resp" }] := by
  decide

/-- C4 (amended): the non-empty-content invariant holds on the chat path —
a whitespace-only message is rejected before any append, so a user turn the
chat handler appends always carries the original non-empty message — but
the stt path appends the stripped transcription unconditionally, even when
it is the empty string. -/
theorem C4_amended_append_invariant (hasKey : Bool) (oc : ModelOutcome)
    (store : Store) (message clientId : String) (h : ¬ pyStrip message = "") :
    message ≠ "" ∧
    (chat hasKey oc store message clientId).store clientId =
      store clientId ++
        [{ role := Role.user, content := message },
         { role := Role.assistant,
           content := (chat hasKey oc store message clientId).resp.reply }] ∧
    (∀ t : String,
      (stt_conversa true (Except.ok t) oc store true clientId).store clientId =
        store clientId ++
          [{ role := Role.user, content := pyStrip t },
           { role := Role.assistant,
             content := (gerar_resposta_agente true oc
               (store clientId ++ [{ role := Role.user, content := pyStrip t }])).reply }]) := by
  refine ⟨fun he => h (by simp [he, pyStrip_empty]), ?_, ?_⟩
  · simp [chat, h, updateStore]
  · intro t
    simp [stt_conversa, updateStore]

/-- Witness for the amended C4 at a concrete message and transcription. -/
theorem C4_amended_append_invariant_witness :
    "Oi" ≠ "" ∧
    (chat true (ModelOutcome.ok "olá") emptyStore "Oi" "u1").store "u1" =
      emptyStore "u1" ++
        [{ role := Role.user, content := "Oi" },
         { role := Role.assistant,
           content := (chat true (ModelOutcome.ok "olá") emptyStore "Oi" "u1").resp.reply }] ∧
    (∀ t : String,
      (stt_conversa true (Except.ok t) (ModelOutcome.ok "olá") emptyStore true "u1").store "u1" =
        emptyStore "u1" ++
          [{ role := Role.user, content := pyStrip t },
           { role := Role.assistant,
             content := (gerar_resposta_agente true (ModelOutcome.ok "olá")
               (emptyStore "u1" ++ [{ role := Role.user, content := pyStrip t }])).reply }]) :=
  C4_amended_append_invariant true (ModelOutcome.ok "olá") emptyStore "Oi" "u1" (by decide)

/-- C5: with no API key, every AI-dependent operation degrades to an
explanatory message instead of an unhandled failure — reply generation and
summarization return fixed apology strings without attempting a call, the
tts handler catches the missing-key error and answers with an explanatory
body, the stt handler answers with an explanatory body and leaves the store
untouched — and the upload/extraction path still works, with the summary
degraded to the apology string and no summarization call attempted. -/
theorem C5_no_key_degrades_gracefully (oc : ModelOutcome)
    (ttsOc tr : Except String String) (store : Store) (history : Log)
    (conteudo texto clientId : String) (hasAudio : Bool) (f : UploadedFile)
    (htxt : ¬ pyStrip texto = "")
    (hname : f.filename ≠ "")
    (hext : supportedTextExts.contains (splitextExt f.filename) = true)
    (hfc : ¬ pyStrip f.textContent = "") :
    gerar_resposta_agente false oc history = { reply := noKeyMsg, modelCall := none } ∧
    resumir_texto false oc conteudo = noKeySummaryMsg ∧
    tts false ttsOc texto =
      TtsResult.errorResp 500 ("Falha ao gerar áudio: " ++ "OpenAI não configurada") ∧
    stt_conversa false tr oc store hasAudio clientId =
      { resp := SttResponse.errorResp 500 "OpenAI não configurada", store := store } ∧
    (upload false oc store (some f) clientId).resp =
      UploadResult.okResp f.filename f.textContent (pyTake f.textContent 1200)
        noKeySummaryMsg ∧
    (upload false oc store (some f) clientId).summarizeCalled = false := by
  have hmem : splitextExt f.filename ∈ supportedTextExts := by
    simpa using hext
  refine ⟨rfl, rfl, ?_, rfl, ?_, ?_⟩
  · simp [tts, htxt, gerar_audio_openai]
  · simp [upload, hname, hmem, uploadWithContent, hfc, resumir_texto]
  · simp [upload, hname, hmem, uploadWithContent, hfc]

/-- Witness for C5 at concrete inputs. -/
theorem C5_no_key_degrades_gracefully_witness :
    gerar_resposta_agente false (ModelOutcome.ok "olá") c1log =
      { reply := noKeyMsg, modelCall := none } ∧
    resumir_texto false (ModelOutcome.ok "olá") "texto longo" = noKeySummaryMsg ∧
    tts false (Except.ok "voz.mp3") "Bom dia" =
      TtsResult.errorResp 500 ("Falha ao gerar áudio: " ++ "OpenAI não configurada") ∧
    stt_conversa false (Except.ok "fala") (ModelOutcome.ok "olá") emptyStore true "u1" =
      { resp := SttResponse.errorResp 500 "OpenAI não configurada", store := emptyStore } ∧
    (upload false (ModelOutcome.ok "olá") emptyStore (some c3file) "u1").resp =
      UploadResult.okResp "nota.txt" "ola" (pyTake "ola" 1200) noKeySummaryMsg ∧
    (upload false (ModelOutcome.ok "olá") emptyStore (some c3file) "u1").summarizeCalled
      = false :=
  C5_no_key_degrades_gracefully (ModelOutcome.ok "olá") (Except.ok "voz.mp3")
    (Except.ok "fala") emptyStore c1log "texto longo" "Bom dia" "u1" true c3file
    (by decide) (by decide) (by decide) (by decide)

/-- C6: a POST /api/chat whose message is empty or whitespace-only gets
exactly the fixed clarification reply with HTTP 200, the store is returned
unchanged, and no model call is attempted. -/
theorem C6_whitespace_message_frame (hasKey : Bool) (oc : ModelOutcome)
    (store : Store) (message clientId : String) (h : pyStrip message = "") :
    chat hasKey oc store message clientId =
      { resp := { status := 200, reply := emptyMsgReply }, store := store,
        modelCall := none } := by
  simp [chat, h]

/-- Witness for C6 at the whitespace message of the spec scenario. -/
theorem C6_whitespace_message_frame_witness :
    chat true (ModelOutcome.ok "olá") emptyStore "  " "u1" =
      { resp := { status := 200, reply := emptyMsgReply }, store := emptyStore,
        modelCall := none } :=
  C6_whitespace_message_frame true (ModelOutcome.ok "olá") emptyStore "  " "u1" (by decide)

/-- C7: a successful upload returns `text` equal to the full extracted
content — for a PDF, the page texts joined by a blank-line separator — and
`preview` equal to the first 1200 characters of that text, all of it when
it is shorter than 1200 characters. -/
theorem C7_upload_text_and_preview (hasKey : Bool) (oc : ModelOutcome) (store : Store)
    (clientId : String) (f g : UploadedFile) (pages : List (Option String))
    (hfname : f.filename ≠ "")
    (hfext : supportedTextExts.contains (splitextExt f.filename) = true)
    (hfne : ¬ pyStrip f.textContent = "")
    (hgname : g.filename ≠ "")
    (hgext : splitextExt g.filename = ".pdf")
    (hgpdf : g.pdfResult = Except.ok pages)
    (hgne : ¬ pyStrip (pdfConcat pages) = "") :
    (upload hasKey oc store (some f) clientId).resp =
      UploadResult.okResp f.filename f.textContent (pyTake f.textContent 1200)
        (resumir_texto hasKey oc f.textContent) ∧
    (upload hasKey oc store (some g) clientId).resp =
      UploadResult.okResp g.filename (pdfConcat pages) (pyTake (pdfConcat pages) 1200)
        (resumir_texto hasKey oc (pdfConcat pages)) ∧
    pdfConcat pages = String.intercalate "\n\n" (pages.map (fun p => p.getD "")) ∧
    (pyTake f.textContent 1200).length = min 1200 f.textContent.length ∧
    pyTake f.textContent 1200 ++ String.mk (f.textContent.data.drop 1200)
      = f.textContent ∧
    (f.textContent.length ≤ 1200 → pyTake f.textContent 1200 = f.textContent) := by
  have hmem : splitextExt f.filename ∈ supportedTextExts := by
    simpa using hfext
  have hpdfmem : (".pdf" : String) ∉ supportedTextExts := by decide
  refine ⟨?_, ?_, rfl, ?_, ?_, ?_⟩
  · simp [upload, hfname, hmem, uploadWithContent, hfne]
  · simp [upload, hgname, hgext, hpdfmem, hgpdf, uploadWithContent, hgne]
  · cases f.textContent with
    | mk data => simp [pyTake]
  · cases f.textContent with
    | mk data =>
      show String.mk (List.take 1200 data ++ List.drop 1200 data) = String.mk data
      rw [List.take_append_drop]
  · cases f.textContent with
    | mk data =>
      intro hlen
      have hd : data.length ≤ 1200 := by simpa using hlen
      simp [pyTake, List.take_of_length_le hd]

/-- Witness for C7: a text upload and a three-page PDF upload. -/
theorem C7_upload_text_and_preview_witness :
    (upload true (ModelOutcome.ok "resumo") emptyStore (some c3file) "u1").resp =
      UploadResult.okResp "nota.txt" "ola" (pyTake "ola" 1200)
        (resumir_texto true (ModelOutcome.ok "resumo") "ola") ∧
    (upload true (ModelOutcome.ok "resumo") emptyStore (some c7pdfFile) "u1").resp =
      UploadResult.okResp "report.pdf"
        (pdfConcat [some "pagina um", some "pagina dois", some "pagina tres"])
        (pyTake (pdfConcat [some "pagina um", some "pagina dois", some "pagina tres"]) 1200)
        (resumir_texto true (ModelOutcome.ok "resumo")
          (pdfConcat [some "pagina um", some "pagina dois", some "pagina tres"])) ∧
    ("ola".length ≤ 1200 → pyTake "ola" 1200 = "ola") := by
  have h := C7_upload_text_and_preview true (ModelOutcome.ok "resumo") emptyStore "u1"
    c3file c7pdfFile [some "pagina um", some "pagina dois", some "pagina tres"]
    (by decide) (by decide) (by decide) (by decide) (by decide) rfl (by decide)
  exact ⟨h.1, h.2.1, h.2.2.2.2.2⟩

/-- C8: an upload whose filename has an extension that is neither a
supported text extension nor `.pdf` is rejected with HTTP 400 and the fixed
unsupported-type body, the store is returned unchanged, and no external
summarization call is attempted. -/
theorem C8_unsupported_extension (hasKey : Bool) (oc : ModelOutcome) (store : Store)
    (clientId : String) (f : UploadedFile)
    (h1 : supportedTextExts.contains
      (splitextExt (if f.filename = "" then "arquivo" else f.filename)) = false)
    (h2 : splitextExt (if f.filename = "" then "arquivo" else f.filename) ≠ ".pdf") :
    upload hasKey oc store (some f) clientId =
      { resp := UploadResult.errorResp 400 unsupportedTypeMsg, store := store,
        summarizeCalled := false } := by
  have hmem : splitextExt (if f.filename = "" then "arquivo" else f.filename)
      ∉ supportedTextExts := by
    simpa using h1
  simp [upload, hmem, h2]

/-- Witness for C8 at a `.exe` upload. -/
theorem C8_unsupported_extension_witness :
    upload true (ModelOutcome.ok "resumo") emptyStore (some c8exeFile) "u1" =
      { resp := UploadResult.errorResp 400 unsupportedTypeMsg, store := emptyStore,
        summarizeCalled := false } :=
  C8_unsupported_extension true (ModelOutcome.ok "resumo") emptyStore "u1" c8exeFile
    (by decide) (by decide)

/-- C9: windowing is a pure read — it leaves the log exactly as it was,
repeating it with no intervening append gives the same result, and running
any interleaving of appends and window reads ends in the log determined by
the appends alone. -/
theorem C9_window_is_pure (l : Log) (ops : List HistOp) :
    (windowOp l).2 = l ∧
    windowOp (windowOp l).2 = windowOp l ∧
    (windowOp l).1 = window l ∧
    runOps ops l = l ++ appendsOf ops := by
  refine ⟨rfl, rfl, rfl, ?_⟩
  induction ops generalizing l with
  | nil => simp [runOps, appendsOf]
  | cons op rest ih =>
    cases op with
    | append t => simp [runOps, appendsOf, ih]
    | readWindow => simp [runOps, appendsOf, windowOp, ih]

/-- C10: every chat request with a non-whitespace message appends exactly
two turns — the user message then an assistant turn — for every model
outcome; on a missing key or a raised call the apology or error string is
itself stored as the assistant turn's content, and that turn lies inside
the context window of the resulting log. -/
theorem C10_chat_always_appends_two_turns (hasKey : Bool) (oc : ModelOutcome)
    (store : Store) (message clientId : String) (h : ¬ pyStrip message = "") :
    ((chat hasKey oc store message clientId).store clientId =
      store clientId ++
        [{ role := Role.user, content := message },
         { role := Role.assistant,
           content := (chat hasKey oc store message clientId).resp.reply }]) ∧
    ((chat hasKey oc store message clientId).store clientId).length
      = (store clientId).length + 2 ∧
    (hasKey = false → (chat hasKey oc store message clientId).resp.reply = noKeyMsg) ∧
    (∀ e, hasKey = true → oc = ModelOutcome.err e →
      (chat hasKey oc store message clientId).resp.reply = modelErrMsg e) ∧
    ({ role := Role.assistant,
       content := (chat hasKey oc store message clientId).resp.reply } : Turn)
      ∈ window ((chat hasKey oc store message clientId).store clientId) := by
  have hrec : (chat hasKey oc store message clientId).store clientId =
      (store clientId ++ [{ role := Role.user, content := message }]) ++
        [{ role := Role.assistant,
           content := (chat hasKey oc store message clientId).resp.reply }] := by
    simp [chat, h, updateStore]
  refine ⟨by simpa using hrec, ?_, ?_, ?_, ?_⟩
  · rw [hrec]
    simp
  · intro hk
    subst hk
    simp [chat, h, gerar_resposta_agente]
  · intro e hk hoc
    subst hk
    subst hoc
    simp [chat, h, gerar_resposta_agente]
  · rw [hrec]
    exact mem_window_concat _ _

/-- Witness for C10: a chat request with no API key stores the apology as
the assistant turn. -/
theorem C10_chat_always_appends_two_turns_witness :
    ((chat false (ModelOutcome.ok "olá") emptyStore "Oi" "u1").store "u1" =
      emptyStore "u1" ++
        [{ role := Role.user, content := "Oi" },
         { role := Role.assistant,
           content := (chat false (ModelOutcome.ok "olá") emptyStore "Oi" "u1").resp.reply }]) ∧
    ((chat false (ModelOutcome.ok "olá") emptyStore "Oi" "u1").store "u1").length
      = (emptyStore "u1").length + 2 ∧
    (chat false (ModelOutcome.ok "olá") emptyStore "Oi" "u1").resp.reply = noKeyMsg := by
  have h := C10_chat_always_appends_two_turns false (ModelOutcome.ok "olá") emptyStore
    "Oi" "u1" (by decide)
  exact ⟨h.1, h.2.1, h.2.2.1 rfl⟩

end App

